import Mathlib

/-!
# Exim SRS glue (`src/srs.c`): a shallow embedding

The file `srs.c` connects Exim to the external `libsrs_alt` library.  It owns
three globals (`srs`, `srs_db_forward`, `srs_db_reverse`), builds the engine
from the configuration (`eximsrs_init`), tears it down (`eximsrs_done`), maps
library results to Exim result codes (`eximsrs_forward`, `eximsrs_reverse`),
and supplies the two store callbacks (`eximsrs_db_insert`,
`eximsrs_db_lookup`) that `eximsrs_db_set` registers.

Conventions of the embedding

* A C string is the list of its characters before the terminating NUL; a
  pointer that may be NULL is an `Option`.
* C `int`/`uint` values are `Int`/`Nat`; nothing in this file can overflow.
* The globals live in the record `Exim`; every function takes the record and
  returns the updated one.
* `libsrs_alt` is not part of the sources: its constants and the results of its
  functions are the fields of the parameter `SrsAlt`, and the calls that build
  or change the engine are appended to the trace `Exim.calls`.
* `expand_string` (the string expander, which reaches the key/value store) is a
  parameter of the two store callbacks.
-/

namespace EximSrs

/-- A NUL-terminated `uschar *` string, without its terminator. -/
abbrev CStr := List Char

/-- The engine handle `srs_t *` as handed out by the library. -/
abbrev srs_t := Nat

/-- Modelled from the spec: the Exim result codes `OK`, `DEFER`, `FAIL` and
`DECLINE` that `srs.c` returns (their `#define`s are in a header that is not
part of the sources): proceed, retry later, reject permanently, pass through. -/
inductive Rc
  | OK
  | DEFER
  | FAIL
  | DECLINE
  deriving DecidableEq

/-- The two option selectors passed to `srs_set_option`. -/
inductive SrsOption
  | SRS_OPTION_USETIMESTAMP
  | SRS_OPTION_USEHASH
  deriving DecidableEq

/-- The library calls of `srs.c` that create, configure or destroy the engine,
with the arguments handed over. -/
inductive LibCall
  | srs_open (secret : CStr) (secret_len : Nat) (maxage hashlen hashmin : Int)
  | srs_set_option (h : srs_t) (opt : SrsOption) (value : Int)
  | srs_add_secret (h : srs_t) (secret : CStr) (secret_len : Nat)
  | srs_close (h : srs_t)
  | srs_set_db_functions (h : Option srs_t) (insert lookup : Bool)
  deriving DecidableEq

/-- The key/value store behind the two expansion strings. -/
abbrev Store := List (CStr × CStr)

/-- The part of `srs_alt.h` and of the library that `srs.c` uses: constants as
values, functions as their results (return code first, then what is written to
the output buffer). -/
structure SrsAlt where
  SRS_MAX_SECRET_LENGTH : Nat
  SRS_RESULT_OK : Int
  SRS_RESULT_FAIL : Int
  SRS_RESULT_NOTSRS : Int
  SRS_RESULT_BADSRS : Int
  SRS_RESULT_BADHASH : Int
  SRS_RESULT_BADTIMESTAMP : Int
  SRS_RESULT_TIMESTAMPEXPIRED : Int
  SRS_RESULT_DBERROR : Int
  SRS_RESULT_ADDRESSTOOLONG : Int
  srs_open : CStr → Nat → Int → Int → Int → Option srs_t
  srs_forward : Option srs_t → CStr → CStr → Nat → Int × CStr
  srs_reverse : Option srs_t → CStr → Nat → Int × CStr
  srs_set_db_functions : Option srs_t → Bool → Bool → Int
  srs_generate_unique_id : Option srs_t → CStr → Nat → Int × CStr

/-- The test `n & SRS_RESULT_FAIL` used on every library result. -/
def SrsAlt.failed (L : SrsAlt) (n : Int) : Bool :=
  decide (Int.land n L.SRS_RESULT_FAIL ≠ 0)

/-- The string expander `expand_string`: given the expansion string and the
variables `srs_db_key` and `srs_db_address`, it yields the expansion (NULL on
failure) and may change the store. -/
abbrev Expander := CStr → Option CStr → Option CStr → Store → Option CStr × Store

/-- The globals read or written by `srs.c`, the store reached through
`expand_string`, the trace of engine calls and the lines sent to `log_write`. -/
structure Exim where
  srs : Option srs_t
  srs_db_forward : Option CStr
  srs_db_reverse : Option CStr
  srs_config : Option (List CStr)
  srs_secrets : Option (List CStr)
  srs_hashlength : Int
  srs_hashmin : Int
  srs_maxage : Int
  srs_usetimestamp : Int
  srs_usehash : Int
  srs_db_address : Option CStr
  srs_db_key : Option CStr
  store : Store
  calls : List LibCall
  log : List String

/-- Modelled from the spec: `string_nextinlist`, the list reader of the
configuration loader (not part of the sources).  A configured list is an
ordered sequence of values; each call yields the next value, cut to what fits
the caller's buffer with its terminator (`buflen - 1` characters: longer
values are silently truncated at ingestion), and the advanced list pointer.
It yields NULL for a NULL list and at the end of the list. -/
def string_nextinlist (list : Option (List CStr)) (buflen : Nat) :
    Option CStr × Option (List CStr) :=
  match list with
  | none => (none, none)
  | some [] => (none, some [])
  | some (x :: rest) => (some (x.take (buflen - 1)), some rest)

/-- The C library test `isspace` (space, and the controls 9 to 13). -/
def isspace (c : Char) : Bool :=
  decide (c.toNat = 32 ∨ (9 ≤ c.toNat ∧ c.toNat ≤ 13))

/-- The digit loop of `atoi`. -/
def atoi_digits : List Char → Int → Int
  | [], acc => acc
  | c :: cs, acc =>
    if 48 ≤ c.toNat ∧ c.toNat ≤ 57 then atoi_digits cs (acc * 10 + ((c.toNat : Int) - 48))
    else acc

/-- The C library function `atoi`: leading white space, an optional sign, then
decimal digits up to the first other character. -/
def atoi (s : CStr) : Int :=
  match s.dropWhile isspace with
  | [] => 0
  | c :: r =>
    if c.toNat = 45 then - atoi_digits r 0
    else if c.toNat = 43 then atoi_digits r 0
    else atoi_digits (c :: r) 0

/-- The locals of `eximsrs_init` after its lines 43 to 67. -/
structure InitLocals where
  secret : Option CStr
  maxage : Int
  hashlen : Int
  usetimestamp : Int
  usehash : Int

/-- Lines 43 to 67 of `eximsrs_init`: copy the option globals, then let the
items of `srs_config` (secret, maxage, hashlen, usetimestamp, usehash)
override them.  The numeric items are read into the four-byte `sbuf`. -/
def init_locals (L : SrsAlt) (st : Exim) : InitLocals :=
  match st.srs_config with
  | none =>
    { secret := none, maxage := st.srs_maxage, hashlen := st.srs_hashlength,
      usetimestamp := st.srs_usetimestamp, usehash := st.srs_usehash }
  | some items =>
    let r0 := string_nextinlist (some items) L.SRS_MAX_SECRET_LENGTH
    let r1 := string_nextinlist r0.2 4
    let r2 := string_nextinlist r1.2 4
    let r3 := string_nextinlist r2.2 4
    let r4 := string_nextinlist r3.2 4
    { secret := r0.1,
      maxage := match r1.1 with | some sbuf => atoi sbuf | none => st.srs_maxage,
      hashlen := match r2.1 with | some sbuf => atoi sbuf | none => st.srs_hashlength,
      usetimestamp := match r3.1 with | some sbuf => atoi sbuf | none => st.srs_usetimestamp,
      usehash := match r4.1 with | some sbuf => atoi sbuf | none => st.srs_usehash }

/-- Lines 69 and 70: an unset `srs_hashmin` (-1) takes the hash length. -/
def init_hashmin (L : SrsAlt) (st : Exim) : Int :=
  if st.srs_hashmin = -1 then (init_locals L st).hashlen else st.srs_hashmin

/-- Lines 73 to 77: the primary secret and the list pointer after it.  `list`
is always reset to `srs_secrets`; its first item is read only when
`srs_config` gave no secret or an empty one. -/
def init_secret (L : SrsAlt) (st : Exim) : Option CStr × Option (List CStr) :=
  match (init_locals L st).secret with
  | some (c :: cs) => (some (c :: cs), st.srs_secrets)
  | _ => string_nextinlist st.srs_secrets L.SRS_MAX_SECRET_LENGTH

/-- Lines 110 to 112: the loop over the remaining items of `srs_secrets`; each
turn reads one item into `secret_buf` and hands it to `srs_add_secret` with its
length capped at `SRS_MAX_SECRET_LENGTH`. -/
def init_add_secrets (L : SrsAlt) (h : srs_t) : List CStr → List LibCall
  | [] => []
  | x :: rest =>
    let secret := x.take (L.SRS_MAX_SECRET_LENGTH - 1)
    LibCall.srs_add_secret h secret
      (if secret.length > L.SRS_MAX_SECRET_LENGTH then L.SRS_MAX_SECRET_LENGTH
       else secret.length)
      :: init_add_secrets L h rest

/-- The function `eximsrs_init` (lines 27 to 119). -/
def eximsrs_init (L : SrsAlt) (st : Exim) : Rc × Exim :=
  match st.srs with
  | some _ => (Rc.OK, st)
  | none =>
    let lc := init_locals L st
    let st1 : Exim := { st with srs_hashmin := init_hashmin L st }
    match init_secret L st with
    | (none, _) =>
      (Rc.DEFER, { st1 with log := st1.log ++ ["SRS Configuration Error: No secret specified"] })
    | (some secret, list) =>
      if lc.maxage < 0 ∨ lc.maxage > 365 then
        (Rc.DEFER,
          { st1 with log := st1.log ++ ["SRS Configuration Error: Invalid maximum timestamp age"] })
      else if lc.hashlen < 1 ∨ lc.hashlen > 20 ∨ st1.srs_hashmin < 1 ∨ st1.srs_hashmin > 20 then
        (Rc.DEFER,
          { st1 with log := st1.log ++ ["SRS Configuration Error: Invalid hash length"] })
      else
        let opened := LibCall.srs_open secret secret.length lc.maxage lc.hashlen st1.srs_hashmin
        match L.srs_open secret secret.length lc.maxage lc.hashlen st1.srs_hashmin with
        | none =>
          (Rc.DEFER,
            { st1 with calls := st1.calls ++ [opened],
                       log := st1.log ++ ["Failed to allocate SRS memory"] })
        | some h =>
          (Rc.OK,
            { st1 with
                srs := some h,
                calls := st1.calls ++
                  [opened,
                   LibCall.srs_set_option h SrsOption.SRS_OPTION_USETIMESTAMP lc.usetimestamp,
                   LibCall.srs_set_option h SrsOption.SRS_OPTION_USEHASH lc.usehash] ++
                  init_add_secrets L h (list.getD []) })

/-- The function `eximsrs_done` (lines 122 to 128). -/
def eximsrs_done (st : Exim) : Rc × Exim :=
  let st1 : Exim :=
    match st.srs with
    | some h => { st with calls := st.calls ++ [LibCall.srs_close h] }
    | none => st
  (Rc.OK, { st1 with srs := none })

/-- The function `eximsrs_forward` (lines 131 to 146); the second component is
what is stored in `*result`, if anything. -/
def eximsrs_forward (L : SrsAlt) (st : Exim) (orig_sender domain : CStr) : Rc × Option CStr :=
  let r := L.srs_forward st.srs orig_sender domain 512
  if L.failed r.1 then (Rc.DEFER, none) else (Rc.OK, some r.2)

/-- The function `eximsrs_reverse` (lines 149 to 168). -/
def eximsrs_reverse (L : SrsAlt) (st : Exim) (address : CStr) : Rc × Option CStr :=
  let r := L.srs_reverse st.srs address 512
  let n := r.1
  if L.failed n then
    if n = L.SRS_RESULT_NOTSRS ∨ n = L.SRS_RESULT_BADSRS then (Rc.DECLINE, none)
    else if n = L.SRS_RESULT_BADHASH ∨ n = L.SRS_RESULT_BADTIMESTAMP ∨
        n = L.SRS_RESULT_TIMESTAMPEXPIRED then (Rc.FAIL, none)
    else (Rc.DEFER, none)
  else (Rc.OK, some r.2)

/-- The function `eximsrs_db_set` (lines 171 to 184). -/
def eximsrs_db_set (L : SrsAlt) (st : Exim) (reverse : Bool) (srs_db : Option CStr) :
    Rc × Exim :=
  let st1 : Exim :=
    if reverse then { st with srs_db_reverse := srs_db }
    else { st with srs_db_forward := srs_db }
  let ins := st1.srs_db_forward.isSome
  let lk := st1.srs_db_reverse.isSome
  let st2 : Exim := { st1 with calls := st1.calls ++ [LibCall.srs_set_db_functions st1.srs ins lk] }
  if L.failed (L.srs_set_db_functions st1.srs ins lk) then (Rc.DEFER, st2) else (Rc.OK, st2)

/-- The callback `eximsrs_db_insert` (lines 187 to 211).  `srs` is the handle
the library passes in; the result is the return code, what is written to
`result` (if anything) and the new globals. -/
def eximsrs_db_insert (L : SrsAlt) (expand_string : Expander) (st : Exim)
    (srs : Option srs_t) (data : CStr) (data_len : Nat) (result_len : Nat) :
    Int × Option CStr × Exim :=
  match st.srs_db_forward with
  | none => (L.SRS_RESULT_DBERROR, none, st)
  | some fwd =>
    let st1 : Exim := { st with srs_db_address := some (data.take data_len) }
    let g := L.srs_generate_unique_id srs (data.take data_len) 64
    if L.failed g.1 then (L.SRS_RESULT_DBERROR, none, st1)
    else
      let st2 : Exim := { st1 with srs_db_key := some (g.2.take 16) }
      let e := expand_string fwd st2.srs_db_key st2.srs_db_address st2.store
      let st3 : Exim := { st2 with store := e.2 }
      match e.1 with
      | none => (L.SRS_RESULT_DBERROR, none, st3)
      | some _ =>
        if result_len < 17 then (L.SRS_RESULT_DBERROR, none, st3)
        else (L.SRS_RESULT_OK, some ((g.2.take 16).take result_len), st3)

/-- The callback `eximsrs_db_lookup` (lines 214 to 232).  Its handle argument
`srs` is not used by the function body and is left out. -/
def eximsrs_db_lookup (L : SrsAlt) (expand_string : Expander) (st : Exim)
    (data : CStr) (data_len : Nat) (result_len : Nat) : Int × Option CStr × Exim :=
  match st.srs_db_reverse with
  | none => (L.SRS_RESULT_DBERROR, none, st)
  | some rev =>
    let st1 : Exim := { st with srs_db_key := some (data.take data_len) }
    let e := expand_string rev st1.srs_db_key st1.srs_db_address st1.store
    let st2 : Exim := { st1 with store := e.2 }
    match e.1 with
    | none => (L.SRS_RESULT_DBERROR, none, st2)
    | some res =>
      if res.length ≥ result_len then (L.SRS_RESULT_ADDRESSTOOLONG, none, st2)
      else (L.SRS_RESULT_OK, some (res.take result_len), st2)

/-! ## Observers on the trace -/

/-- The secrets with which `srs_open` was called, in call order. -/
def opened_secrets : List LibCall → List CStr
  | [] => []
  | LibCall.srs_open s _ _ _ _ :: cs => s :: opened_secrets cs
  | _ :: cs => opened_secrets cs

/-- The secrets handed to `srs_add_secret`, in call order. -/
def added_secrets : List LibCall → List CStr
  | [] => []
  | LibCall.srs_add_secret _ s _ :: cs => s :: added_secrets cs
  | _ :: cs => added_secrets cs

/-- The six result codes that `srs.c` names are pairwise different. -/
def SrsAlt.codes_distinct (L : SrsAlt) : Prop :=
  [L.SRS_RESULT_NOTSRS, L.SRS_RESULT_BADSRS, L.SRS_RESULT_BADHASH,
   L.SRS_RESULT_BADTIMESTAMP, L.SRS_RESULT_TIMESTAMPEXPIRED, L.SRS_RESULT_DBERROR].Nodup

instance (L : SrsAlt) : Decidable L.codes_distinct := by
  unfold SrsAlt.codes_distinct
  infer_instance

/-! ## Sample library, expander and configurations

The values below are used to run the functions on concrete inputs. -/

/-- A sample library.  Result code 0 is success and every failure code has the
bits of `SRS_RESULT_FAIL`; secrets may take 32 bytes.  With `strict` the
library refuses a NULL handle, without it the handle is not looked at.
`srs_open` always allocates handle 1; `srs_reverse` knows one tampered address
and otherwise strips a four-character tag and its separator. -/
def demoLib (strict : Bool) : SrsAlt where
  SRS_MAX_SECRET_LENGTH := 32
  SRS_RESULT_OK := 0
  SRS_RESULT_FAIL := 0xFF00
  SRS_RESULT_NOTSRS := 0xFF01
  SRS_RESULT_BADSRS := 0xFF02
  SRS_RESULT_BADHASH := 0xFF03
  SRS_RESULT_BADTIMESTAMP := 0xFF04
  SRS_RESULT_TIMESTAMPEXPIRED := 0xFF05
  SRS_RESULT_DBERROR := 0xFF06
  SRS_RESULT_ADDRESSTOOLONG := 0xFF07
  srs_open := fun _ _ _ _ _ => some 1
  srs_forward := fun h sender domain _ =>
    if strict && h.isNone then (0xFF08, [])
    else (0, "SRS0=".toList ++ sender ++ "@".toList ++ domain)
  srs_reverse := fun h address _ =>
    if strict && h.isNone then (0xFF08, [])
    else if address = "SRS0=tampered".toList then (0xFF03, [])
    else if address.take 4 = "SRS0".toList then (0, address.drop 5)
    else (0xFF01, [])
  srs_set_db_functions := fun h _ _ => if strict && h.isNone then 0xFF08 else 0
  srs_generate_unique_id := fun h address _ =>
    if strict && h.isNone then (0xFF08, []) else (0, "id-".toList ++ address)

/-- A sample expander over the store: the expansion string `insert` records
`srs_db_address` under `srs_db_key`, every other string looks `srs_db_key` up. -/
def demoExpand : Expander := fun template key address s =>
  if template = "insert".toList then
    match key, address with
    | some k, some a => (some [], (k, a) :: s)
    | _, _ => (none, s)
  else
    match key with
    | some k => (s.lookup k, s)
    | none => (none, s)

/-- A sample of the globals before initialisation: one secret list, no
`srs_config`, ranges copied from the arguments. -/
def demoExim (secrets : Option (List CStr)) (maxage hashlen hashmin : Int) : Exim where
  srs := none
  srs_db_forward := none
  srs_db_reverse := none
  srs_config := none
  srs_secrets := secrets
  srs_hashlength := hashlen
  srs_hashmin := hashmin
  srs_maxage := maxage
  srs_usetimestamp := 1
  srs_usehash := 1
  srs_db_address := none
  srs_db_key := none
  store := []
  calls := []
  log := []

/-- The three messages with which `eximsrs_init` reports a configuration
error. -/
def config_errors : List String :=
  ["SRS Configuration Error: No secret specified",
   "SRS Configuration Error: Invalid maximum timestamp age",
   "SRS Configuration Error: Invalid hash length"]

/-- The sample library with an identifier generator that reports failure. -/
def failingIdLib : SrsAlt :=
  { demoLib false with srs_generate_unique_id := fun _ _ _ => (0xFF08, []) }

/-- The sample globals with an engine (handle 1) and both store bridges set:
`insert` for the forward direction, `lookup` for the reverse one. -/
def demoBridged (store : Store) : Exim :=
  { demoExim (some ["secret".toList]) 30 5 5 with
      srs := some 1
      srs_db_forward := some "insert".toList
      srs_db_reverse := some "lookup".toList
      store := store }

/-- A secret of forty characters, longer than the sample library accepts. -/
def longSecret : CStr := "0123456789abcdefghijklmnopqrstuvwxyzABCD".toList

/-! ## Supporting lemmas -/

/-- The loop over the remaining secrets makes one `srs_add_secret` call for
each item, in order; the length cap never takes effect, because an item read
into `secret_buf` is shorter than `SRS_MAX_SECRET_LENGTH`. -/
theorem init_add_secrets_eq_map (L : SrsAlt) (h : srs_t) (items : List CStr) :
    init_add_secrets L h items =
      items.map fun s =>
        LibCall.srs_add_secret h (s.take (L.SRS_MAX_SECRET_LENGTH - 1))
          (s.take (L.SRS_MAX_SECRET_LENGTH - 1)).length := by
  induction items with
  | nil => rfl
  | cons x rest ih =>
    simp [init_add_secrets, ih]

/-- When `srs_config` gives no secret or an empty one, the primary secret is
the first item of `srs_secrets`. -/
theorem init_secret_of_no_config_secret (L : SrsAlt) (st : Exim)
    (hcfg : (init_locals L st).secret = none ∨ (init_locals L st).secret = some []) :
    init_secret L st = string_nextinlist st.srs_secrets L.SRS_MAX_SECRET_LENGTH := by
  unfold init_secret
  rcases hcfg with h | h <;> rw [h]

/-- What a successful `eximsrs_init` on an uninitialised engine has done: it
found a primary secret, the ranges passed both checks, `srs_open` returned a
handle, and the trace grew by the `srs_open` call, the two option calls and
one `srs_add_secret` call for each item left in the secret list. -/
theorem eximsrs_init_ok (L : SrsAlt) (st : Exim) (h0 : st.srs = none)
    (hok : (eximsrs_init L st).1 = Rc.OK) :
    ∃ secret list h,
      init_secret L st = (some secret, list) ∧
      (0 ≤ (init_locals L st).maxage ∧ (init_locals L st).maxage ≤ 365) ∧
      (1 ≤ (init_locals L st).hashlen ∧ (init_locals L st).hashlen ≤ 20) ∧
      (1 ≤ init_hashmin L st ∧ init_hashmin L st ≤ 20) ∧
      L.srs_open secret secret.length (init_locals L st).maxage (init_locals L st).hashlen
        (init_hashmin L st) = some h ∧
      (eximsrs_init L st).2.srs = some h ∧
      (eximsrs_init L st).2.calls = st.calls ++
        [LibCall.srs_open secret secret.length (init_locals L st).maxage
           (init_locals L st).hashlen (init_hashmin L st),
         LibCall.srs_set_option h SrsOption.SRS_OPTION_USETIMESTAMP (init_locals L st).usetimestamp,
         LibCall.srs_set_option h SrsOption.SRS_OPTION_USEHASH (init_locals L st).usehash] ++
        init_add_secrets L h (list.getD []) := by
  unfold eximsrs_init at hok ⊢
  rw [h0] at hok ⊢
  simp only at hok ⊢
  rcases hsec : init_secret L st with ⟨_ | secret, list⟩
  · rw [hsec] at hok
    simp at hok
  · rw [hsec] at hok
    simp only at hok ⊢
    by_cases hage : (init_locals L st).maxage < 0 ∨ (init_locals L st).maxage > 365
    · rw [if_pos hage] at hok
      simp at hok
    · rw [if_neg hage] at hok ⊢
      by_cases hlen : (init_locals L st).hashlen < 1 ∨ (init_locals L st).hashlen > 20 ∨
          init_hashmin L st < 1 ∨ init_hashmin L st > 20
      · rw [if_pos hlen] at hok
        simp at hok
      · rw [if_neg hlen] at hok ⊢
        rcases hopen : L.srs_open secret secret.length (init_locals L st).maxage
            (init_locals L st).hashlen (init_hashmin L st) with _ | h
        · rw [hopen] at hok
          simp at hok
        · refine ⟨secret, list, h, rfl, ?_, ?_, ?_, hopen, ?_, ?_⟩
          · constructor <;> omega
          · constructor <;> omega
          · constructor <;> omega
          · simp
          · simp

/-- With no secret from `srs_config` and an absent or empty secret list,
`eximsrs_init` logs that no secret was specified and returns DEFER without
touching the engine. -/
theorem eximsrs_init_no_secret (L : SrsAlt) (st : Exim) (h0 : st.srs = none)
    (hcfg : (init_locals L st).secret = none ∨ (init_locals L st).secret = some [])
    (hsec : st.srs_secrets = none ∨ st.srs_secrets = some []) :
    (eximsrs_init L st).1 = Rc.DEFER ∧
    (eximsrs_init L st).2.srs = none ∧
    (eximsrs_init L st).2.calls = st.calls ∧
    (eximsrs_init L st).2.log = st.log ++ ["SRS Configuration Error: No secret specified"] := by
  have hs : (init_secret L st).1 = none := by
    rw [init_secret_of_no_config_secret L st hcfg]
    rcases hsec with h | h <;> rw [h] <;> rfl
  unfold eximsrs_init
  rw [h0]
  simp only
  rcases hsec2 : init_secret L st with ⟨_ | secret, list⟩
  · simp [h0]
  · rw [hsec2] at hs
    simp at hs

/-- The round trip through the store when the library generates an
identifier: the insert callback returns OK with the first 16 characters of
the identifier as token and key, and the lookup callback of that token
returns the address. -/
theorem round_trip_of_generated_id (L : SrsAlt) (E : Expander) (st : Exim) (srs : Option srs_t)
    (fwd rev A : CStr) (insert_len lookup_len : Nat)
    (hf : st.srs_db_forward = some fwd) (hr : st.srs_db_reverse = some rev)
    (hfwd : ∀ k a s, (E fwd (some k) (some a) s).1 ≠ none ∧
      (E fwd (some k) (some a) s).2 = (k, a) :: s)
    (hrev : ∀ k a s, E rev (some k) a s = (s.lookup k, s))
    (hid : L.failed (L.srs_generate_unique_id srs A 64).1 = false)
    (h17 : 17 ≤ insert_len) (hlen : A.length < lookup_len) :
    ∃ T,
      T = (L.srs_generate_unique_id srs A 64).2.take 16 ∧
      (eximsrs_db_insert L E st srs A A.length insert_len).1 = L.SRS_RESULT_OK ∧
      (eximsrs_db_insert L E st srs A A.length insert_len).2.1 = some T ∧
      (eximsrs_db_insert L E st srs A A.length insert_len).2.2.srs_db_key = some T ∧
      (eximsrs_db_insert L E st srs A A.length insert_len).2.2.store = (T, A) :: st.store ∧
      (eximsrs_db_lookup L E (eximsrs_db_insert L E st srs A A.length insert_len).2.2
        T T.length lookup_len).1 = L.SRS_RESULT_OK ∧
      (eximsrs_db_lookup L E (eximsrs_db_insert L E st srs A A.length insert_len).2.2
        T T.length lookup_len).2.1 = some A ∧
      (eximsrs_db_lookup L E (eximsrs_db_insert L E st srs A A.length insert_len).2.2
        T T.length lookup_len).2.2.srs_db_key = some T := by
  have hfw := hfwd ((L.srs_generate_unique_id srs A 64).2.take 16) A st.store
  obtain ⟨hne, hstore⟩ := hfw
  obtain ⟨r, hr1⟩ := Option.ne_none_iff_exists'.mp hne
  have h17n : ¬ insert_len < 17 := by omega
  have hT : List.length (List.take 16 (L.srs_generate_unique_id srs A 64).2) ≤ insert_len := by
    have := List.length_take_le 16 (L.srs_generate_unique_id srs A 64).2
    omega
  have hins : eximsrs_db_insert L E st srs A A.length insert_len =
      (L.SRS_RESULT_OK, some ((L.srs_generate_unique_id srs A 64).2.take 16),
        { st with
            srs_db_address := some A
            srs_db_key := some ((L.srs_generate_unique_id srs A 64).2.take 16)
            store := ((L.srs_generate_unique_id srs A 64).2.take 16, A) :: st.store }) := by
    simp only [eximsrs_db_insert, hf, List.take_length, hid, hr1, hstore, h17n,
      Bool.false_eq_true, if_false]
    rw [List.take_of_length_le hT]
  have hAn : ¬ lookup_len ≤ A.length := by omega
  have hlk : eximsrs_db_lookup L E
      { st with
          srs_db_address := some A
          srs_db_key := some ((L.srs_generate_unique_id srs A 64).2.take 16)
          store := ((L.srs_generate_unique_id srs A 64).2.take 16, A) :: st.store }
      ((L.srs_generate_unique_id srs A 64).2.take 16)
      ((L.srs_generate_unique_id srs A 64).2.take 16).length lookup_len =
      (L.SRS_RESULT_OK, some A,
        { st with
            srs_db_address := some A
            srs_db_key := some ((L.srs_generate_unique_id srs A 64).2.take 16)
            store := ((L.srs_generate_unique_id srs A 64).2.take 16, A) :: st.store }) := by
    simp only [eximsrs_db_lookup, hr, List.take_length, hrev, List.lookup_cons, beq_self_eq_true,
      ge_iff_le, hAn, if_false]
    rw [List.take_of_length_le (by omega)]
  refine ⟨_, rfl, ?_⟩
  rw [hins]
  simp only
  rw [hlk]
  simp

/-- When the library cannot generate an identifier, the insert callback
returns DBError, writes no token, and changes nothing but `srs_db_address`:
the expander is not called and the store and `srs_db_key` are untouched. -/
theorem eximsrs_db_insert_of_failed_id (L : SrsAlt) (E : Expander) (st : Exim)
    (srs : Option srs_t) (fwd data : CStr) (data_len result_len : Nat)
    (hf : st.srs_db_forward = some fwd)
    (hid : L.failed (L.srs_generate_unique_id srs (data.take data_len) 64).1 = true) :
    eximsrs_db_insert L E st srs data data_len result_len =
      (L.SRS_RESULT_DBERROR, none, { st with srs_db_address := some (data.take data_len) }) := by
  simp only [eximsrs_db_insert, hf, hid, if_true]

/-! ## The claims -/

/-- C1. `eximsrs_reverse` maps every failing library result `n` as follows:
NotSRS and BadSRS give DECLINE; BadHash, BadTimestamp and TimestampExpired give
FAIL; every other failing result, DBError included, gives DEFER; in all three
cases nothing is stored in the result.  A result that does not fail gives OK
with the address the library produced. -/
theorem eximsrs_reverse_classifies (L : SrsAlt) (st : Exim) (address : CStr)
    (hd : L.codes_distinct) :
    (L.failed (L.srs_reverse st.srs address 512).1 = true →
      (((L.srs_reverse st.srs address 512).1 = L.SRS_RESULT_NOTSRS ∨
        (L.srs_reverse st.srs address 512).1 = L.SRS_RESULT_BADSRS) →
          eximsrs_reverse L st address = (Rc.DECLINE, none)) ∧
      (((L.srs_reverse st.srs address 512).1 = L.SRS_RESULT_BADHASH ∨
        (L.srs_reverse st.srs address 512).1 = L.SRS_RESULT_BADTIMESTAMP ∨
        (L.srs_reverse st.srs address 512).1 = L.SRS_RESULT_TIMESTAMPEXPIRED) →
          eximsrs_reverse L st address = (Rc.FAIL, none)) ∧
      (((L.srs_reverse st.srs address 512).1 ≠ L.SRS_RESULT_NOTSRS ∧
        (L.srs_reverse st.srs address 512).1 ≠ L.SRS_RESULT_BADSRS ∧
        (L.srs_reverse st.srs address 512).1 ≠ L.SRS_RESULT_BADHASH ∧
        (L.srs_reverse st.srs address 512).1 ≠ L.SRS_RESULT_BADTIMESTAMP ∧
        (L.srs_reverse st.srs address 512).1 ≠ L.SRS_RESULT_TIMESTAMPEXPIRED) →
          eximsrs_reverse L st address = (Rc.DEFER, none)) ∧
      ((L.srs_reverse st.srs address 512).1 = L.SRS_RESULT_DBERROR →
          eximsrs_reverse L st address = (Rc.DEFER, none))) ∧
    (L.failed (L.srs_reverse st.srs address 512).1 = false →
      eximsrs_reverse L st address = (Rc.OK, some (L.srs_reverse st.srs address 512).2)) := by
  simp only [SrsAlt.codes_distinct, List.nodup_cons, List.mem_cons, List.mem_singleton,
    not_or, List.not_mem_nil, not_false_eq_true, List.nodup_nil, and_true] at hd
  obtain ⟨⟨h12, h13, h14, h15, h16⟩, ⟨h23, h24, h25, h26⟩, ⟨h34, h35, h36⟩,
    ⟨h45, h46⟩, h56⟩ := hd
  refine ⟨fun hf => ⟨?_, ?_, ?_, ?_⟩, fun hf => ?_⟩
  · intro hn
    simp [eximsrs_reverse, hf, hn]
  · intro hn
    have hA : (L.srs_reverse st.srs address 512).1 ≠ L.SRS_RESULT_NOTSRS := by
      rcases hn with e | e | e <;> rw [e]
      · exact fun c => h13 c.symm
      · exact fun c => h14 c.symm
      · exact fun c => h15 c.symm
    have hB : (L.srs_reverse st.srs address 512).1 ≠ L.SRS_RESULT_BADSRS := by
      rcases hn with e | e | e <;> rw [e]
      · exact fun c => h23 c.symm
      · exact fun c => h24 c.symm
      · exact fun c => h25 c.symm
    simp [eximsrs_reverse, hf, hn, hA, hB]
  · rintro ⟨n1, n2, n3, n4, n5⟩
    simp [eximsrs_reverse, hf, n1, n2, n3, n4, n5]
  · intro e
    have n1 : (L.srs_reverse st.srs address 512).1 ≠ L.SRS_RESULT_NOTSRS := by
      rw [e]; exact fun c => h16 c.symm
    have n2 : (L.srs_reverse st.srs address 512).1 ≠ L.SRS_RESULT_BADSRS := by
      rw [e]; exact fun c => h26 c.symm
    have n3 : (L.srs_reverse st.srs address 512).1 ≠ L.SRS_RESULT_BADHASH := by
      rw [e]; exact fun c => h36 c.symm
    have n4 : (L.srs_reverse st.srs address 512).1 ≠ L.SRS_RESULT_BADTIMESTAMP := by
      rw [e]; exact fun c => h46 c.symm
    have n5 : (L.srs_reverse st.srs address 512).1 ≠ L.SRS_RESULT_TIMESTAMPEXPIRED := by
      rw [e]; exact fun c => h56 c.symm
    simp [eximsrs_reverse, hf, n1, n2, n3, n4, n5]
  · simp [eximsrs_reverse, hf]

/-- Witness of C1: with the sample library, a tampered address has the failing
result BadHash and is answered with FAIL. -/
theorem eximsrs_reverse_classifies_witness :
    (demoLib false).codes_distinct ∧
    eximsrs_reverse (demoLib false) (demoExim none 30 5 5) "SRS0=tampered".toList =
      (Rc.FAIL, none) :=
  ⟨by decide,
   ((eximsrs_reverse_classifies (demoLib false) (demoExim none 30 5 5)
      "SRS0=tampered".toList (by decide)).1 (by decide)).2.1 (Or.inl (by decide))⟩

/-- C2. Called with `srs` NULL, `eximsrs_init` answers a maximum age outside
0..365, or a hash length or minimum hash length outside 1..20 (the values in
force after the `srs_config` overrides and the `srs_hashmin` default), with
DEFER and one configuration-error line in the log; `srs` stays NULL and no
library call is made, so `srs_open` is never reached. -/
theorem eximsrs_init_rejects_bad_ranges (L : SrsAlt) (st : Exim) (h0 : st.srs = none)
    (hbad : (init_locals L st).maxage < 0 ∨ 365 < (init_locals L st).maxage ∨
      (init_locals L st).hashlen < 1 ∨ 20 < (init_locals L st).hashlen ∨
      init_hashmin L st < 1 ∨ 20 < init_hashmin L st) :
    (eximsrs_init L st).1 = Rc.DEFER ∧
    (eximsrs_init L st).2.srs = none ∧
    (eximsrs_init L st).2.calls = st.calls ∧
    ∃ msg ∈ config_errors, (eximsrs_init L st).2.log = st.log ++ [msg] := by
  unfold eximsrs_init
  rw [h0]
  simp only
  rcases hsec : init_secret L st with ⟨_ | secret, list⟩
  · simp [h0, config_errors]
  · simp only
    by_cases hage : (init_locals L st).maxage < 0 ∨ (init_locals L st).maxage > 365
    · rw [if_pos hage]
      simp [h0, config_errors]
    · rw [if_neg hage]
      have hlen : (init_locals L st).hashlen < 1 ∨ (init_locals L st).hashlen > 20 ∨
          init_hashmin L st < 1 ∨ init_hashmin L st > 20 := by
        rcases hbad with h | h | h | h | h | h
        · exact absurd (Or.inl h) hage
        · exact absurd (Or.inr h) hage
        · exact Or.inl h
        · exact Or.inr (Or.inl h)
        · exact Or.inr (Or.inr (Or.inl h))
        · exact Or.inr (Or.inr (Or.inr h))
      rw [if_pos hlen]
      simp [h0, config_errors]

/-- Witness of C2: a maximum age of 400 days, and a hash length of 0 given
through `srs_config`, are both turned down before the engine is opened. -/
theorem eximsrs_init_rejects_bad_ranges_witness :
    ((eximsrs_init (demoLib true) (demoExim (some ["secret".toList]) 400 5 5)).1 = Rc.DEFER ∧
     (eximsrs_init (demoLib true) (demoExim (some ["secret".toList]) 400 5 5)).2.srs = none ∧
     (eximsrs_init (demoLib true) (demoExim (some ["secret".toList]) 400 5 5)).2.calls = []) ∧
    (eximsrs_init (demoLib true)
      { demoExim none 30 5 5 with srs_config := some ["secret".toList, "30".toList, "0".toList] }).1
        = Rc.DEFER :=
  ⟨⟨(eximsrs_init_rejects_bad_ranges (demoLib true) (demoExim (some ["secret".toList]) 400 5 5)
        rfl (by decide)).1,
    (eximsrs_init_rejects_bad_ranges (demoLib true) (demoExim (some ["secret".toList]) 400 5 5)
        rfl (by decide)).2.1,
    (eximsrs_init_rejects_bad_ranges (demoLib true) (demoExim (some ["secret".toList]) 400 5 5)
        rfl (by decide)).2.2.1⟩,
   (eximsrs_init_rejects_bad_ranges (demoLib true)
      { demoExim none 30 5 5 with srs_config := some ["secret".toList, "30".toList, "0".toList] }
      rfl (by decide)).1⟩

/-- Counterexample to C4: a primary secret of forty characters reaches
`srs_open` cut to thirty-one characters (the sample library accepts 32 bytes
with the terminator), and a rotated secret of that length is cut likewise. -/
theorem eximsrs_init_cuts_long_secret :
    (eximsrs_init (demoLib true) (demoExim (some [longSecret, longSecret]) 30 5 5)).1 = Rc.OK ∧
    opened_secrets
      (eximsrs_init (demoLib true) (demoExim (some [longSecret, longSecret]) 30 5 5)).2.calls
        = [longSecret.take 31] ∧
    added_secrets
      (eximsrs_init (demoLib true) (demoExim (some [longSecret, longSecret]) 30 5 5)).2.calls
        = [longSecret.take 31] ∧
    longSecret.take 31 ≠ longSecret := by
  decide

/-- C4, amended. With no secret from `srs_config` and the secret list
`s0, s1, ..., sn` in `srs_secrets`, a successful `eximsrs_init` makes exactly
these engine calls, in this order: `srs_open` with `s0`, the two option calls,
then `srs_add_secret` once for each of `s1, ..., sn` in list order; every
secret is handed over cut to its first `SRS_MAX_SECRET_LENGTH - 1` characters,
which leaves a secret shorter than `SRS_MAX_SECRET_LENGTH` unchanged. -/
theorem eximsrs_init_secret_order (L : SrsAlt) (st : Exim) (s0 : CStr) (rest : List CStr)
    (h0 : st.srs = none)
    (hcfg : (init_locals L st).secret = none ∨ (init_locals L st).secret = some [])
    (hsec : st.srs_secrets = some (s0 :: rest))
    (hok : (eximsrs_init L st).1 = Rc.OK) :
    (∃ h,
      (eximsrs_init L st).2.srs = some h ∧
      (eximsrs_init L st).2.calls = st.calls ++
        [LibCall.srs_open (s0.take (L.SRS_MAX_SECRET_LENGTH - 1))
           (s0.take (L.SRS_MAX_SECRET_LENGTH - 1)).length
           (init_locals L st).maxage (init_locals L st).hashlen (init_hashmin L st),
         LibCall.srs_set_option h SrsOption.SRS_OPTION_USETIMESTAMP (init_locals L st).usetimestamp,
         LibCall.srs_set_option h SrsOption.SRS_OPTION_USEHASH (init_locals L st).usehash] ++
        rest.map fun s =>
          LibCall.srs_add_secret h (s.take (L.SRS_MAX_SECRET_LENGTH - 1))
            (s.take (L.SRS_MAX_SECRET_LENGTH - 1)).length) ∧
    ∀ s ∈ s0 :: rest, s.length < L.SRS_MAX_SECRET_LENGTH →
      s.take (L.SRS_MAX_SECRET_LENGTH - 1) = s := by
  constructor
  · obtain ⟨secret, list, h, hs, _, _, _, _, hsrs, hcalls⟩ := eximsrs_init_ok L st h0 hok
    rw [init_secret_of_no_config_secret L st hcfg, hsec] at hs
    simp only [string_nextinlist, Prod.mk.injEq, Option.some.injEq] at hs
    obtain ⟨hs1, hs2⟩ := hs
    subst hs1
    subst hs2
    refine ⟨h, hsrs, ?_⟩
    rw [hcalls, init_add_secrets_eq_map]
    rfl
  · intro s _ hlen
    apply List.take_of_length_le
    omega

/-- Witness of C4, amended: the secrets `secret`, `old`, `older` are handed
over unchanged, the first to `srs_open`, the others to `srs_add_secret`. -/
theorem eximsrs_init_secret_order_witness :
    (eximsrs_init (demoLib true)
      (demoExim (some ["secret".toList, "old".toList, "older".toList]) 30 5 5)).2.calls =
      [LibCall.srs_open "secret".toList 6 30 5 5,
       LibCall.srs_set_option 1 SrsOption.SRS_OPTION_USETIMESTAMP 1,
       LibCall.srs_set_option 1 SrsOption.SRS_OPTION_USEHASH 1,
       LibCall.srs_add_secret 1 "old".toList 3,
       LibCall.srs_add_secret 1 "older".toList 5] := by
  obtain ⟨h, hsrs, hcalls⟩ :=
    (eximsrs_init_secret_order (demoLib true)
      (demoExim (some ["secret".toList, "old".toList, "older".toList]) 30 5 5)
      "secret".toList ["old".toList, "older".toList] rfl (Or.inl rfl) rfl (by decide)).1
  have h1 : h = 1 := by
    have : (eximsrs_init (demoLib true)
      (demoExim (some ["secret".toList, "old".toList, "older".toList]) 30 5 5)).2.srs = some 1 := by
      decide
    rw [this] at hsrs
    exact (Option.some.inj hsrs).symm
  subst h1
  rw [hcalls]
  decide

/-- C5, the code at the failing input: with no `srs_config` and a secret list
whose first element is empty, `eximsrs_init` reports no error, calls
`srs_open` with the empty secret and length 0, and returns OK. -/
theorem eximsrs_init_empty_primary_secret :
    (eximsrs_init (demoLib true) (demoExim (some [[], "second".toList]) 30 5 5)).1 = Rc.OK ∧
    (eximsrs_init (demoLib true) (demoExim (some [[], "second".toList]) 30 5 5)).2.calls =
      [LibCall.srs_open [] 0 30 5 5,
       LibCall.srs_set_option 1 SrsOption.SRS_OPTION_USETIMESTAMP 1,
       LibCall.srs_set_option 1 SrsOption.SRS_OPTION_USEHASH 1,
       LibCall.srs_add_secret 1 "second".toList 6] ∧
    (eximsrs_init (demoLib true) (demoExim (some [[], "second".toList]) 30 5 5)).2.log = [] := by
  decide

/-- Counterexample to C6: both bridges are set over one store (the forward
expansion records the address under the key, the reverse one returns the value
under the key) and the budget is 64, yet `eximsrs_db_insert` returns DBError
without a token and with the store untouched, because the library could not
generate an identifier. -/
theorem eximsrs_db_insert_id_failure :
    (∀ k a s, (demoExpand "insert".toList (some k) (some a) s).1 ≠ none ∧
      (demoExpand "insert".toList (some k) (some a) s).2 = (k, a) :: s) ∧
    (∀ k a s, demoExpand "lookup".toList (some k) a s = (s.lookup k, s)) ∧
    (17 ≤ 64 ∧ "a@b".toList.length < 64) ∧
    (eximsrs_db_insert failingIdLib demoExpand (demoBridged []) (some 1) "a@b".toList 3 64).1
      = failingIdLib.SRS_RESULT_DBERROR ∧
    (eximsrs_db_insert failingIdLib demoExpand (demoBridged []) (some 1) "a@b".toList 3 64).2.1
      = none ∧
    (eximsrs_db_insert failingIdLib demoExpand (demoBridged []) (some 1) "a@b".toList 3 64).2.2.store
      = [] ∧
    failingIdLib.SRS_RESULT_DBERROR ≠ failingIdLib.SRS_RESULT_OK := by
  refine ⟨?_, ?_, by decide, by decide, by decide, by decide, by decide⟩
  · intro k a s
    simp [demoExpand]
  · intro k a s
    have hne : ("lookup".toList = "insert".toList) = False := by decide
    simp [demoExpand, hne]

/-- C6, amended. Both bridges are set over one store: the forward expansion
records `srs_db_address` under `srs_db_key`, the reverse expansion returns the
value recorded under `srs_db_key`; the insert budget is at least 17 and the
lookup budget exceeds the length of the address `A`.  If the library
generates an identifier for `A`, then `eximsrs_db_insert` returns OK with a
token `T` (the first 16 characters of the identifier) that is the key under
which `A` was stored, and `eximsrs_db_lookup` of `T` queries the store with
`T` and returns OK with `A`.  If the library fails to generate an identifier,
`eximsrs_db_insert` returns DBError, writes no token and stores nothing: the
store and `srs_db_key` are as before, only `srs_db_address` holds `A`. -/
theorem compact_round_trip (L : SrsAlt) (E : Expander) (st : Exim) (srs : Option srs_t)
    (fwd rev A : CStr) (insert_len lookup_len : Nat)
    (hf : st.srs_db_forward = some fwd) (hr : st.srs_db_reverse = some rev)
    (hfwd : ∀ k a s, (E fwd (some k) (some a) s).1 ≠ none ∧
      (E fwd (some k) (some a) s).2 = (k, a) :: s)
    (hrev : ∀ k a s, E rev (some k) a s = (s.lookup k, s))
    (h17 : 17 ≤ insert_len) (hlen : A.length < lookup_len) :
    (L.failed (L.srs_generate_unique_id srs A 64).1 = false →
      ∃ T,
        T = (L.srs_generate_unique_id srs A 64).2.take 16 ∧
        (eximsrs_db_insert L E st srs A A.length insert_len).1 = L.SRS_RESULT_OK ∧
        (eximsrs_db_insert L E st srs A A.length insert_len).2.1 = some T ∧
        (eximsrs_db_insert L E st srs A A.length insert_len).2.2.srs_db_key = some T ∧
        (eximsrs_db_insert L E st srs A A.length insert_len).2.2.store = (T, A) :: st.store ∧
        (eximsrs_db_lookup L E (eximsrs_db_insert L E st srs A A.length insert_len).2.2
          T T.length lookup_len).1 = L.SRS_RESULT_OK ∧
        (eximsrs_db_lookup L E (eximsrs_db_insert L E st srs A A.length insert_len).2.2
          T T.length lookup_len).2.1 = some A ∧
        (eximsrs_db_lookup L E (eximsrs_db_insert L E st srs A A.length insert_len).2.2
          T T.length lookup_len).2.2.srs_db_key = some T) ∧
    (L.failed (L.srs_generate_unique_id srs A 64).1 = true →
      (eximsrs_db_insert L E st srs A A.length insert_len).1 = L.SRS_RESULT_DBERROR ∧
      (eximsrs_db_insert L E st srs A A.length insert_len).2.1 = none ∧
      (eximsrs_db_insert L E st srs A A.length insert_len).2.2.store = st.store ∧
      (eximsrs_db_insert L E st srs A A.length insert_len).2.2.srs_db_key = st.srs_db_key ∧
      (eximsrs_db_insert L E st srs A A.length insert_len).2.2 =
        { st with srs_db_address := some A }) := by
  constructor
  · intro hid
    exact round_trip_of_generated_id L E st srs fwd rev A insert_len lookup_len
      hf hr hfwd hrev hid h17 hlen
  · intro hid
    have hid2 : L.failed (L.srs_generate_unique_id srs (A.take A.length) 64).1 = true := by
      rw [List.take_length]
      exact hid
    rw [eximsrs_db_insert_of_failed_id L E st srs fwd A A.length insert_len hf hid2]
    simp

/-- Witness of C6, amended: with the sample library and expander, inserting
`a@b` yields the token `id-a@b` and looking that token up yields `a@b`; with
the library whose generator fails, inserting `a@b` returns DBError and the
store stays empty. -/
theorem compact_round_trip_witness :
    ((eximsrs_db_insert (demoLib true) demoExpand (demoBridged []) (some 1)
        "a@b".toList 3 17).1 = 0 ∧
      (eximsrs_db_insert (demoLib true) demoExpand (demoBridged []) (some 1)
        "a@b".toList 3 17).2.1 = some "id-a@b".toList ∧
      (eximsrs_db_insert (demoLib true) demoExpand (demoBridged []) (some 1)
        "a@b".toList 3 17).2.2.store = [("id-a@b".toList, "a@b".toList)] ∧
      (eximsrs_db_lookup (demoLib true) demoExpand
        (eximsrs_db_insert (demoLib true) demoExpand (demoBridged []) (some 1)
          "a@b".toList 3 17).2.2 "id-a@b".toList 6 4).2.1 = some "a@b".toList) ∧
    ((eximsrs_db_insert failingIdLib demoExpand (demoBridged []) (some 1)
        "a@b".toList 3 17).1 = 0xFF06 ∧
      (eximsrs_db_insert failingIdLib demoExpand (demoBridged []) (some 1)
        "a@b".toList 3 17).2.1 = none ∧
      (eximsrs_db_insert failingIdLib demoExpand (demoBridged []) (some 1)
        "a@b".toList 3 17).2.2.store = []) := by
  have hfwd : ∀ k a s, (demoExpand "insert".toList (some k) (some a) s).1 ≠ none ∧
      (demoExpand "insert".toList (some k) (some a) s).2 = (k, a) :: s := by
    intro k a s
    simp [demoExpand]
  have hrev : ∀ k a s, demoExpand "lookup".toList (some k) a s = (s.lookup k, s) := by
    intro k a s
    have hne : ("lookup".toList = "insert".toList) = False := by decide
    simp [demoExpand, hne]
  constructor
  · obtain ⟨T, hT, h1, h2, _, h4, _, h6, _⟩ :=
      (compact_round_trip (demoLib true) demoExpand (demoBridged []) (some 1)
        "insert".toList "lookup".toList "a@b".toList 17 4 rfl rfl hfwd hrev
        (by decide) (by decide)).1 (by decide)
    have hT2 : T = "id-a@b".toList := by
      rw [hT]
      decide
    subst hT2
    exact ⟨h1, h2, h4, h6⟩
  · obtain ⟨h1, h2, h3, _, _⟩ :=
      (compact_round_trip failingIdLib demoExpand (demoBridged []) (some 1)
        "insert".toList "lookup".toList "a@b".toList 17 4 rfl rfl hfwd hrev
        (by decide) (by decide)).2 (by decide)
    exact ⟨h1, h2, h3⟩

/-- Counterexample to C7: the store returns the three-character address `a@b`
for the token `tok`, the budget is exactly 3, and `eximsrs_db_lookup` returns
AddressTooLong with nothing copied instead of OK with `a@b`. -/
theorem eximsrs_db_lookup_at_budget :
    demoExpand "lookup".toList (some ("tok".toList.take 3)) none [("tok".toList, "a@b".toList)]
      = (some "a@b".toList, [("tok".toList, "a@b".toList)]) ∧
    "a@b".toList.length = 3 ∧
    (eximsrs_db_lookup (demoLib true) demoExpand
      (demoBridged [("tok".toList, "a@b".toList)]) "tok".toList 3 3).1
        = (demoLib true).SRS_RESULT_ADDRESSTOOLONG ∧
    (eximsrs_db_lookup (demoLib true) demoExpand
      (demoBridged [("tok".toList, "a@b".toList)]) "tok".toList 3 3).2.1 = none ∧
    (demoLib true).SRS_RESULT_ADDRESSTOOLONG ≠ (demoLib true).SRS_RESULT_OK := by
  decide

/-- C7, amended. When the reverse store returns the address `R` for the
token, `eximsrs_db_lookup` with budget `result_len` fails with AddressTooLong,
copying nothing, when the length of `R` reaches or exceeds `result_len`
(the budget has to hold the terminator as well), and returns OK with `R`
copied to the result when the length of `R` is below `result_len`. -/
theorem eximsrs_db_lookup_budget (L : SrsAlt) (E : Expander) (st : Exim) (rev data R : CStr)
    (data_len result_len : Nat) (store1 : Store)
    (hr : st.srs_db_reverse = some rev)
    (hE : E rev (some (data.take data_len)) st.srs_db_address st.store = (some R, store1)) :
    (result_len ≤ R.length →
      (eximsrs_db_lookup L E st data data_len result_len).1 = L.SRS_RESULT_ADDRESSTOOLONG ∧
      (eximsrs_db_lookup L E st data data_len result_len).2.1 = none) ∧
    (R.length < result_len →
      (eximsrs_db_lookup L E st data data_len result_len).1 = L.SRS_RESULT_OK ∧
      (eximsrs_db_lookup L E st data data_len result_len).2.1 = some R) := by
  constructor
  · intro hge
    simp [eximsrs_db_lookup, hr, hE, hge]
  · intro hlt
    have hn : ¬ result_len ≤ R.length := by omega
    have ht : List.take result_len R = R := List.take_of_length_le (by omega)
    simp [eximsrs_db_lookup, hr, hE, hn, ht]

/-- Witness of C7, amended: the three-character address `a@b` is refused with
budget 3 and copied with budget 4. -/
theorem eximsrs_db_lookup_budget_witness :
    ((eximsrs_db_lookup (demoLib true) demoExpand
        (demoBridged [("tok".toList, "a@b".toList)]) "tok".toList 3 3).1
          = (demoLib true).SRS_RESULT_ADDRESSTOOLONG ∧
      (eximsrs_db_lookup (demoLib true) demoExpand
        (demoBridged [("tok".toList, "a@b".toList)]) "tok".toList 3 3).2.1 = none) ∧
    ((eximsrs_db_lookup (demoLib true) demoExpand
        (demoBridged [("tok".toList, "a@b".toList)]) "tok".toList 3 4).1
          = (demoLib true).SRS_RESULT_OK ∧
      (eximsrs_db_lookup (demoLib true) demoExpand
        (demoBridged [("tok".toList, "a@b".toList)]) "tok".toList 3 4).2.1 = some "a@b".toList) :=
  ⟨(eximsrs_db_lookup_budget (demoLib true) demoExpand
      (demoBridged [("tok".toList, "a@b".toList)]) "lookup".toList "tok".toList "a@b".toList
      3 3 [("tok".toList, "a@b".toList)] rfl (by decide)).1 (by decide),
   (eximsrs_db_lookup_budget (demoLib true) demoExpand
      (demoBridged [("tok".toList, "a@b".toList)]) "lookup".toList "tok".toList "a@b".toList
      3 4 [("tok".toList, "a@b".toList)] rfl (by decide)).2 (by decide)⟩

/-- Counterexample to C9: a forward and a reverse bridge set before
`eximsrs_done` are both still set after it. -/
theorem eximsrs_done_keeps_bridges :
    (eximsrs_done (demoBridged [])).1 = Rc.OK ∧
    (eximsrs_done (demoBridged [])).2.srs = none ∧
    (eximsrs_done (demoBridged [])).2.srs_db_forward = some "insert".toList ∧
    (eximsrs_done (demoBridged [])).2.srs_db_reverse = some "lookup".toList := by
  decide

/-- C9, amended. For every engine state, `eximsrs_done` returns OK and leaves
`srs` NULL, having closed the library handle if there was one (which releases
the secret ring); `srs_db_forward`, `srs_db_reverse` and every other global
keep the values they had before. -/
theorem eximsrs_done_effect (st : Exim) :
    (eximsrs_done st).1 = Rc.OK ∧
    (eximsrs_done st).2.srs = none ∧
    (eximsrs_done st).2.calls =
      st.calls ++ (match st.srs with | some h => [LibCall.srs_close h] | none => []) ∧
    (eximsrs_done st).2.srs_db_forward = st.srs_db_forward ∧
    (eximsrs_done st).2.srs_db_reverse = st.srs_db_reverse ∧
    (eximsrs_done st).2 = { st with srs := none, calls := (eximsrs_done st).2.calls } := by
  unfold eximsrs_done
  cases st.srs <;> simp

/-- Counterexample to C10: with `srs` NULL and a library that does not look
at the handle, all three functions return OK, and `eximsrs_db_set` has stored
the bridge. -/
theorem not_ready_returns_ok :
    (demoExim none 30 5 5).srs = none ∧
    (eximsrs_forward (demoLib false) (demoExim none 30 5 5) "a@b".toList "c.d".toList).1
      = Rc.OK ∧
    (eximsrs_reverse (demoLib false) (demoExim none 30 5 5) "SRS0=a@b".toList).1 = Rc.OK ∧
    (eximsrs_db_set (demoLib false) (demoExim none 30 5 5) false (some "insert".toList)).1
      = Rc.OK ∧
    (eximsrs_db_set (demoLib false) (demoExim none 30 5 5) false (some "insert".toList)).2.srs_db_forward
      = some "insert".toList := by
  decide

/-- C10, amended. With `srs` NULL, none of `eximsrs_forward`,
`eximsrs_reverse` and `eximsrs_db_set` checks the handle itself: each hands
NULL to the library and returns OK exactly when the library result has no
failure bit.  So each returns a failure result, for every argument, exactly
when the library refuses the NULL handle. -/
theorem not_ready_follows_library (L : SrsAlt) (st : Exim) (h0 : st.srs = none) :
    (∀ orig_sender domain,
      (eximsrs_forward L st orig_sender domain).1 = Rc.OK ↔
        L.failed (L.srs_forward none orig_sender domain 512).1 = false) ∧
    (∀ address,
      (eximsrs_reverse L st address).1 = Rc.OK ↔
        L.failed (L.srs_reverse none address 512).1 = false) ∧
    (∀ srs_db,
      ((eximsrs_db_set L st false srs_db).1 = Rc.OK ↔
        L.failed (L.srs_set_db_functions none srs_db.isSome st.srs_db_reverse.isSome) = false) ∧
      ((eximsrs_db_set L st true srs_db).1 = Rc.OK ↔
        L.failed (L.srs_set_db_functions none st.srs_db_forward.isSome srs_db.isSome) = false)) := by
  refine ⟨?_, ?_, ?_⟩
  · intro orig_sender domain
    simp only [eximsrs_forward, h0]
    split_ifs with hf <;> simp [hf]
  · intro address
    simp only [eximsrs_reverse, h0]
    split_ifs with hf <;> simp [hf]
  · intro srs_db
    constructor
    · simp only [eximsrs_db_set, h0]
      split_ifs with hf <;> simp_all
    · simp only [eximsrs_db_set, h0]
      split_ifs with hf <;> simp_all

/-- Witness of C10, amended: with a library that refuses a NULL handle, the
three functions return DEFER on the uninitialised sample state. -/
theorem not_ready_follows_library_witness :
    (demoExim none 30 5 5).srs = none ∧
    (eximsrs_forward (demoLib true) (demoExim none 30 5 5) "a@b".toList "c.d".toList).1
      ≠ Rc.OK ∧
    (eximsrs_reverse (demoLib true) (demoExim none 30 5 5) "SRS0=a@b".toList).1 ≠ Rc.OK ∧
    (eximsrs_db_set (demoLib true) (demoExim none 30 5 5) false (some "insert".toList)).1
      ≠ Rc.OK :=
  ⟨rfl,
   fun h => absurd (((not_ready_follows_library (demoLib true) (demoExim none 30 5 5) rfl).1
      "a@b".toList "c.d".toList).1 h) (by decide),
   fun h => absurd (((not_ready_follows_library (demoLib true) (demoExim none 30 5 5) rfl).2.1
      "SRS0=a@b".toList).1 h) (by decide),
   fun h => absurd ((((not_ready_follows_library (demoLib true) (demoExim none 30 5 5) rfl).2.2
      (some "insert".toList)).1).1 h) (by decide)⟩

end EximSrs
